import Mathlib

/-!
Verification development for the LibDCBridge C sources
(`Sources/LibDCBridge/src/configuredc.c`).

The C code is shallowly embedded: C strings become `List Char`, the
libdivecomputer status enumeration becomes `dc_status_t`, the external
descriptor catalog (libdivecomputer's descriptor iterator) becomes an
explicit `List dc_descriptor_t` parameter, and the side effects of the
session-lifecycle functions (allocations, frees, closes, callback
invocations) are made observable as an explicit event trace.
-/

/-- C strings (`const char *`) are embedded as lists of characters. -/
abbrev Str := List Char

/-- The libdivecomputer status codes used by `configuredc.c`.
`IO_FAIL` embeds `DC_STATUS_IO`; `OTHER n` stands for any further
device-specific status propagated verbatim from `dc_device_open`. -/
inductive dc_status_t where
  | SUCCESS
  | UNSUPPORTED
  | INVALIDARGS
  | NOMEMORY
  | IO_FAIL
  | TIMEOUT
  | OTHER (code : Nat)
deriving DecidableEq, Repr

/-- `strstr(hay, needle) != NULL`: `needle` occurs contiguously in `hay`. -/
def isSubstring (needle hay : Str) : Bool :=
  (List.range (hay.length + 1)).any fun i => needle.isPrefixOf (hay.drop i)

/-- The anonymous `match_type` enum of `struct name_pattern`.
`MATCH_PFX` embeds the C mode that compares the key to the start of the
name via `strncmp(name, key, strlen(key)) == 0`. -/
inductive match_mode where
  | MATCH_EXACT
  | MATCH_PFX
  | MATCH_CONTAINS
deriving DecidableEq, Repr

/-- `struct name_pattern` from configuredc.c; `match_key` embeds the C
field holding the pattern key. -/
structure name_pattern where
  match_key : Str
  vendor : Str
  product : Str
  match_type : match_mode
deriving DecidableEq, Repr

/-- Helper to build a `name_pattern` from string literals. -/
def NP (k v p : String) (t : match_mode) : name_pattern :=
  ⟨k.data, v.data, p.data, t⟩

/-- The static `name_patterns[]` table, in its declared order. -/
def name_patterns : List name_pattern := [
  NP "Predator" "Shearwater" "Predator" .MATCH_EXACT,
  NP "Perdix 2" "Shearwater" "Perdix 2" .MATCH_EXACT,
  NP "Petrel 3" "Shearwater" "Petrel 3" .MATCH_EXACT,
  NP "Petrel" "Shearwater" "Petrel 2" .MATCH_EXACT,
  NP "Perdix" "Shearwater" "Perdix" .MATCH_EXACT,
  NP "Teric" "Shearwater" "Teric" .MATCH_EXACT,
  NP "Peregrine TX" "Shearwater" "Peregrine TX" .MATCH_EXACT,
  NP "Peregrine" "Shearwater" "Peregrine TX" .MATCH_EXACT,
  NP "NERD 2" "Shearwater" "NERD 2" .MATCH_EXACT,
  NP "NERD" "Shearwater" "NERD" .MATCH_EXACT,
  NP "Tern" "Shearwater" "Tern" .MATCH_EXACT,
  NP "EON Steel" "Suunto" "EON Steel" .MATCH_EXACT,
  NP "Suunto D5" "Suunto" "D5" .MATCH_EXACT,
  NP "EON Core" "Suunto" "EON Core" .MATCH_EXACT,
  NP "G2" "Scubapro" "G2" .MATCH_EXACT,
  NP "HUD" "Scubapro" "G2 HUD" .MATCH_EXACT,
  NP "G3" "Scubapro" "G3" .MATCH_EXACT,
  NP "Aladin" "Scubapro" "Aladin Sport Matrix" .MATCH_EXACT,
  NP "A1" "Scubapro" "Aladin A1" .MATCH_EXACT,
  NP "A2" "Scubapro" "Aladin A2" .MATCH_EXACT,
  NP "Luna 2.0 AI" "Scubapro" "Luna 2.0 AI" .MATCH_EXACT,
  NP "Luna 2.0" "Scubapro" "Luna 2.0" .MATCH_EXACT,
  NP "Mares Genius" "Mares" "Genius" .MATCH_EXACT,
  NP "Sirius" "Mares" "Sirius" .MATCH_EXACT,
  NP "Quad Ci" "Mares" "Quad Ci" .MATCH_EXACT,
  NP "Puck4" "Mares" "Puck 4" .MATCH_EXACT,
  NP "CARESIO_" "Cressi" "Cartesio" .MATCH_PFX,
  NP "GOA_" "Cressi" "Goa" .MATCH_PFX,
  NP "Leonardo" "Cressi" "Leonardo 2.0" .MATCH_CONTAINS,
  NP "Donatello" "Cressi" "Donatello" .MATCH_CONTAINS,
  NP "Michelangelo" "Cressi" "Michelangelo" .MATCH_CONTAINS,
  NP "Neon" "Cressi" "Neon" .MATCH_CONTAINS,
  NP "Nepto" "Cressi" "Nepto" .MATCH_CONTAINS,
  NP "OSTC 3" "Heinrichs Weikamp" "OSTC Plus" .MATCH_EXACT,
  NP "OSTC s#" "Heinrichs Weikamp" "OSTC Sport" .MATCH_EXACT,
  NP "OSTC s " "Heinrichs Weikamp" "OSTC Sport" .MATCH_EXACT,
  NP "OSTC 4-" "Heinrichs Weikamp" "OSTC 4" .MATCH_EXACT,
  NP "OSTC 2-" "Heinrichs Weikamp" "OSTC 2N" .MATCH_EXACT,
  NP "OSTC + " "Heinrichs Weikamp" "OSTC 2" .MATCH_EXACT,
  NP "OSTC" "Heinrichs Weikamp" "OSTC 2" .MATCH_EXACT,
  NP "COSMIQ" "Deepblu" "Cosmiq+" .MATCH_EXACT,
  NP "S1" "Oceans" "S1" .MATCH_EXACT,
  NP "McLean Extreme" "McLean" "Extreme" .MATCH_EXACT,
  NP "DiveComputer" "Tecdiving" "DiveComputer.eu" .MATCH_EXACT,
  NP "DS" "Ratio" "iX3M 2021 GPS Easy" .MATCH_EXACT,
  NP "IX5M" "Ratio" "iX3M 2021 GPS Easy" .MATCH_EXACT,
  NP "RATIO-" "Ratio" "iX3M 2021 GPS Easy" .MATCH_EXACT
]

/-- The per-entry match test of `find_descriptor_by_name`: `MATCH_EXACT`
and `MATCH_CONTAINS` both use `strstr(name, key) != NULL`; `MATCH_PFX`
uses `strncmp(name, key, strlen(key)) == 0`. -/
def pattern_matches (name : Str) (p : name_pattern) : Bool :=
  match p.match_type with
  | .MATCH_EXACT => isSubstring p.match_key name
  | .MATCH_PFX => p.match_key.isPrefixOf name
  | .MATCH_CONTAINS => isSubstring p.match_key name

/-- A libdivecomputer device descriptor, as observed through the accessor
functions used by configuredc.c.  `ble_transport` embeds
`dc_descriptor_get_transports(d) & DC_TRANSPORT_BLE`, and `filterBLE`
embeds `dc_descriptor_filter(d, DC_TRANSPORT_BLE, name)`. -/
structure dc_descriptor_t where
  vendor : Str
  product : Str
  family : Nat
  model : Nat
  ble_transport : Bool
  filterBLE : Str → Bool

/-- The catalog scan performed inside the pattern loop of
`find_descriptor_by_name`: the first descriptor whose vendor and product
strings equal the entry's. -/
def lookup_vendor_product (catalog : List dc_descriptor_t) (p : name_pattern) :
    Option dc_descriptor_t :=
  catalog.find? fun d => d.vendor == p.vendor && d.product == p.product

/-- One iteration of the pattern loop: on a match, scan the catalog for
the entry's vendor/product; otherwise move on. -/
def pattern_step (catalog : List dc_descriptor_t) (name : Str) (p : name_pattern) :
    Option dc_descriptor_t :=
  if pattern_matches name p then lookup_vendor_product catalog p else none

/-- `find_descriptor_by_name`: phase 1 walks `name_patterns` in declared
order, returning the first successful catalog hit of a matching entry;
phase 2 falls back to the BLE-capable descriptors' own filter
predicates.  `none` embeds `DC_STATUS_UNSUPPORTED`. -/
def find_descriptor_by_name (catalog : List dc_descriptor_t) (name : Str) :
    Option dc_descriptor_t :=
  match List.findSome? (pattern_step catalog name) name_patterns with
  | some d => some d
  | none => catalog.find? fun d => d.ble_transport && d.filterBLE name

/-- `find_descriptor_by_model`: first catalog descriptor matching the
(family, model) pair; `none` embeds `DC_STATUS_UNSUPPORTED`. -/
def find_descriptor_by_model (catalog : List dc_descriptor_t)
    (family : Nat) (model : Nat) : Option dc_descriptor_t :=
  catalog.find? fun d => d.family == family && d.model == model

/-- `dc_event_devinfo_t`: the device-info snapshot delivered by a
`DC_EVENT_DEVINFO` event. -/
structure dc_event_devinfo_t where
  model : Nat
  firmware : Nat
  serial : Nat
deriving DecidableEq, Repr

/-- `dc_event_progress_t`: the snapshot delivered by a
`DC_EVENT_PROGRESS` event. -/
structure dc_event_progress_t where
  current : Nat
  maximum : Nat
deriving DecidableEq, Repr

/-- The libdivecomputer event kinds dispatched to the session's event
callback. -/
inductive dc_event_t where
  | DC_EVENT_DEVINFO (info : dc_event_devinfo_t)
  | DC_EVENT_PROGRESS (p : dc_event_progress_t)
  | DC_EVENT_CLOCK
  | DC_EVENT_WAITING
deriving Repr

/-- Observable side effects of the session-lifecycle code.  Allocation
and release of each resource kind carry the identity of the object (an
abstract id for opaque handles, the contents for strings and byte
buffers), so that a trace shows exactly which object was acquired or
released and in what order. -/
inductive Evt where
  | ctx_new (id : Nat)
  | ctx_free (id : Nat)
  | bleobj_new (id : Nat)
  | bleobj_free (id : Nat)
  | stream_new (id : Nat)
  | stream_close (id : Nat)
  | dev_open (id : Nat)
  | dev_close (id : Nat)
  | desc_new (vendor product : Str)
  | desc_free (vendor product : Str)
  | model_new (s : Str)
  | model_free (s : Str)
  | fp_free (bytes : List Nat)
  | fp_lookup (device_type serial : Str)
  | fp_set (device : Nat) (bytes : List Nat)
  | name_resolve (name : Str)
deriving DecidableEq, Repr

/-- `device_data_t` from configuredc.h.  Pointer fields become
`Option`s (`none` = NULL); opaque handles are abstract ids.  The default
values are the all-zero state produced by `memset`/`calloc`. -/
structure device_data_t where
  device : Option Nat := none
  context : Option Nat := none
  iostream : Option Nat := none
  descriptor : Option dc_descriptor_t := none
  have_devinfo : Bool := false
  devinfo : dc_event_devinfo_t := ⟨0, 0, 0⟩
  have_progress : Bool := false
  progress : dc_event_progress_t := ⟨0, 0⟩
  have_clock : Bool := false
  fingerprint : Option (List Nat) := none
  fsize : Nat := 0
  fingerprint_context : Nat := 0
  lookup_fingerprint : Option (Nat → Str → Str → Option (List Nat)) := none
  model : Option Str := none
  fdeviceid : Nat := 0
  fdiveid : Nat := 0

/-- Outcomes of the external calls made by the lifecycle functions:
libdivecomputer's context/device layer, the platform BLE layer, and the
allocator.  The `*_id` fields are the identities of the objects those
calls hand out on success. -/
structure Env where
  ctx_new : dc_status_t
  ctx_id : Nat
  catalog : List dc_descriptor_t
  ble_create_ok : Bool
  bleobj_id : Nat
  ble_connect : Str → Bool
  stream_alloc_ok : Bool
  stream_id : Nat
  dev_open : dc_descriptor_t → dc_status_t
  dev_id : Nat
  set_events : dc_status_t
  model_alloc_ok : Bool
  calloc_ok : Bool

/-- `DC_FAMILY_NULL`. -/
def DC_FAMILY_NULL : Nat := 0

/-- `ble_packet_open`: create a BLE object, connect, and wrap the
connection in a custom iostream.  Returns the stream handle on success;
on failure every object acquired inside the call has been freed. -/
def ble_packet_open (env : Env) (devaddr : Str) :
    dc_status_t × Option Nat × List Evt :=
  if env.ble_create_ok then
    if env.ble_connect devaddr then
      if env.stream_alloc_ok then
        (.SUCCESS, some env.stream_id,
         [Evt.bleobj_new env.bleobj_id, Evt.stream_new env.stream_id])
      else
        (.NOMEMORY, none,
         [Evt.bleobj_new env.bleobj_id, Evt.bleobj_free env.bleobj_id])
    else
      (.IO_FAIL, none,
       [Evt.bleobj_new env.bleobj_id, Evt.bleobj_free env.bleobj_id])
  else (.NOMEMORY, none, [])

/-- `close_device_data`: sequentially releases fingerprint bytes, model
label, device handle, stream, and context — each release followed by
nulling the owning field — and finally nulls (without releasing) the
descriptor field.  A NULL argument is a no-op.  Closing the stream also
releases the BLE object wrapped inside it (`ble_stream_close`). -/
def close_device_data : Option device_data_t → Option device_data_t × List Evt
  | none => (none, [])
  | some d =>
    let s1 : device_data_t × List Evt :=
      match d.fingerprint with
      | some b => ({ d with fingerprint := none, fsize := 0 }, [Evt.fp_free b])
      | none => (d, [])
    let s2 : device_data_t × List Evt :=
      match s1.1.model with
      | some s => ({ s1.1 with model := none }, s1.2 ++ [Evt.model_free s])
      | none => s1
    let s3 : device_data_t × List Evt :=
      match s2.1.device with
      | some i => ({ s2.1 with device := none }, s2.2 ++ [Evt.dev_close i])
      | none => s2
    let s4 : device_data_t × List Evt :=
      match s3.1.iostream with
      | some i => ({ s3.1 with iostream := none }, s3.2 ++ [Evt.stream_close i])
      | none => s3
    let s5 : device_data_t × List Evt :=
      match s4.1.context with
      | some i => ({ s4.1 with context := none }, s4.2 ++ [Evt.ctx_free i])
      | none => s4
    (some { s5.1 with descriptor := none }, s5.2)

/-- `open_ble_device`: NULL-pointer argument check, `memset` of the
caller's struct, then context creation, descriptor resolution, BLE
stream open, device open, event registration, and model-label
allocation, unwinding through `close_device_data` on failure. -/
def open_ble_device (env : Env) (data : Option device_data_t)
    (devaddr : Option Str) (family : Nat) (model : Nat) :
    dc_status_t × Option device_data_t × List Evt :=
  match data, devaddr with
  | none, _ => (.INVALIDARGS, data, [])
  | some _, none => (.INVALIDARGS, data, [])
  | some _, some addr =>
    -- memset(data, 0, sizeof(device_data_t)): the caller's struct is
    -- zeroed before anything is acquired; its prior contents are gone.
    let d0 : device_data_t := {}
    if env.ctx_new = .SUCCESS then
      let d1 := { d0 with context := some env.ctx_id }
      let tr1 := [Evt.ctx_new env.ctx_id]
      match find_descriptor_by_model env.catalog family model with
      | none =>
        let c := close_device_data (some d1)
        (.UNSUPPORTED, c.1, tr1 ++ c.2)
      | some descriptor =>
        let tr2 := tr1 ++ [Evt.desc_new descriptor.vendor descriptor.product]
        let b := ble_packet_open env addr
        match b.2.1 with
        | none =>
          let c := close_device_data (some d1)
          (b.1, c.1, tr2 ++ b.2.2 ++ c.2)
        | some sid =>
          let d2 := { d1 with iostream := some sid }
          let rcOpen := env.dev_open descriptor
          if rcOpen = .SUCCESS then
            let d3 := { d2 with device := some env.dev_id }
            let tr3 := tr2 ++ b.2.2 ++ [Evt.dev_open env.dev_id]
            if env.set_events = .SUCCESS then
              let d4 := { d3 with descriptor := some descriptor }
              if env.model_alloc_ok then
                let full := descriptor.vendor ++ " ".data ++ descriptor.product
                (.SUCCESS, some { d4 with model := some full },
                 tr3 ++ [Evt.model_new full])
              else (.SUCCESS, some d4, tr3)
            else
              let c := close_device_data (some d3)
              (env.set_events, c.1, tr3 ++ c.2)
          else
            let c := close_device_data (some d2)
            (rcOpen, c.1, tr2 ++ b.2.2 ++ c.2)
    else (env.ctx_new, some d0, [])

/-- `get_device_info_from_name`: resolve the name to a descriptor, read
off its (family, model) pair, and free the descriptor.  The
`name_resolve` event marks the invocation of name resolution. -/
def get_device_info_from_name (catalog : List dc_descriptor_t) (name : Str) :
    dc_status_t × Option (Nat × Nat) × List Evt :=
  match find_descriptor_by_name catalog name with
  | none => (.UNSUPPORTED, none, [Evt.name_resolve name])
  | some d =>
    (.SUCCESS, some (d.family, d.model),
     [Evt.name_resolve name, Evt.desc_new d.vendor d.product,
      Evt.desc_free d.vendor d.product])

/-- The fallback tail of `open_ble_device_with_identification`: resolve
the name, open with the resolved pair, and free the session struct
(discarding it) on any failure. -/
def fallback_open (env : Env) (name : Str) (addr : Str)
    (data : Option device_data_t) :
    dc_status_t × Option device_data_t × List Evt :=
  let gi := get_device_info_from_name env.catalog name
  match gi.2.1 with
  | none => (gi.1, none, gi.2.2)
  | some fm =>
    let o := open_ble_device env data (some addr) fm.1 fm.2
    if o.1 = .SUCCESS then (.SUCCESS, o.2.1, gi.2.2 ++ o.2.2)
    else (o.1, none, gi.2.2 ++ o.2.2)

/-- `open_ble_device_with_identification`: calloc a session, try the
stored (family, model) pair first when both are present, and fall back
to name resolution when the stored open fails or no pair was stored. -/
def open_ble_device_with_identification (env : Env) (name : Str)
    (address : Str) (stored_family : Nat) (stored_model : Nat) :
    dc_status_t × Option device_data_t × List Evt :=
  if env.calloc_ok then
    if stored_family ≠ DC_FAMILY_NULL ∧ stored_model ≠ 0 then
      let stored := open_ble_device env (some {}) (some address)
        stored_family stored_model
      if stored.1 = .SUCCESS then stored
      else
        let fb := fallback_open env name address stored.2.1
        (fb.1, fb.2.1, stored.2.2 ++ fb.2.2)
    else fallback_open env name address (some {})
  else (.NOMEMORY, none, [])

/-- The hexadecimal digit characters produced by `%x` (lowercase). -/
def hexDigit (n : Nat) : Char :=
  if n < 10 then Char.ofNat (48 + n) else Char.ofNat (87 + n)

/-- `snprintf(serial, sizeof(serial), "%08x", devinfo->serial)`: the
serial (a 32-bit unsigned int) rendered as exactly eight lowercase hex
digits, zero-padded. -/
def format_serial_hex8 (n : Nat) : Str :=
  [hexDigit (n / 16 ^ 7 % 16), hexDigit (n / 16 ^ 6 % 16),
   hexDigit (n / 16 ^ 5 % 16), hexDigit (n / 16 ^ 4 % 16),
   hexDigit (n / 16 ^ 3 % 16), hexDigit (n / 16 ^ 2 % 16),
   hexDigit (n / 16 % 16), hexDigit (n % 16)]

/-- `ble_device_event_cb`: on DEVINFO, snapshot the event into the
session and, when both a lookup callback and a model label are present,
format the serial, invoke the lookup once, and on a non-NULL non-empty
result set the fingerprint on the device handle and store it in the
session.  On PROGRESS, snapshot.  Other events are ignored. -/
def ble_device_event_cb (device : Nat) (event : dc_event_t)
    (userdata : Option device_data_t) : Option device_data_t × List Evt :=
  match userdata with
  | none => (none, [])
  | some devdata =>
    match event with
    | .DC_EVENT_DEVINFO info =>
      let d1 := { devdata with devinfo := info, have_devinfo := true }
      match d1.lookup_fingerprint, d1.model with
      | some lookup, some mstr =>
        let serial := format_serial_hex8 info.serial
        let r := lookup d1.fingerprint_context mstr serial
        let tr0 := [Evt.fp_lookup mstr serial]
        match r with
        | some bytes =>
          if bytes.length > 0 then
            (some { d1 with fingerprint := some bytes, fsize := bytes.length },
             tr0 ++ [Evt.fp_set device bytes])
          else (some d1, tr0)
        | none => (some d1, tr0)
      | _, _ => (some d1, [])
    | .DC_EVENT_PROGRESS p =>
      (some { devdata with progress := p, have_progress := true }, [])
    | _ => (some devdata, [])

/-- Modelled from the spec: `ble_read` is implemented by the platform
Swift BLE manager (declared in BLEBridge.h, not part of src).  Spec
§4.1: a read returns the bytes that have arrived so far, up to the
requested count (partial reads are legal), and returns the Timeout kind
when zero bytes arrive before the timeout elapses.  `avail` is the data
the transport has to deliver for this call. -/
def ble_read (avail : List Nat) (requested : Nat) :
    dc_status_t × List Nat × Nat :=
  if avail.isEmpty then (.TIMEOUT, [], 0)
  else (.SUCCESS, avail.take requested, (avail.take requested).length)

/-- `ble_stream_read`: calls `ble_read` and returns its status and
actual count unchanged; the BLE-header debug block in the body inspects
the buffer but performs no mutation (all its prints are commented out). -/
def ble_stream_read (avail : List Nat) (requested : Nat) :
    dc_status_t × List Nat × Nat :=
  let rc := ble_read avail requested
  rc

/-!  Helper lemmas about list scans, shared by the theorems below. -/

lemma findSome?_append_of_isSome {α β : Type} (f : α → Option β)
    (l₁ l₂ : List α) (h : (List.findSome? f l₁).isSome = true) :
    List.findSome? f (l₁ ++ l₂) = List.findSome? f l₁ := by
  induction l₁ with
  | nil => simp [List.findSome?] at h
  | cons a t ih =>
    rw [List.cons_append, List.findSome?_cons, List.findSome?_cons]
    cases hfa : f a with
    | some b => simp
    | none =>
      simp only
      exact ih (by rwa [List.findSome?_cons, hfa] at h)

lemma findSome?_append_of_none {α β : Type} (f : α → Option β)
    (l₁ l₂ : List α) (h : ∀ a ∈ l₁, f a = none) :
    List.findSome? f (l₁ ++ l₂) = List.findSome? f l₂ := by
  induction l₁ with
  | nil => simp
  | cons a t ih =>
    rw [List.cons_append, List.findSome?_cons, h a (by simp)]
    exact ih fun x hx => h x (by simp [hx])

lemma findSome?_isSome_of_mem {α β : Type} (f : α → Option β)
    {l : List α} {a : α} (hmem : a ∈ l) (h : (f a).isSome = true) :
    (List.findSome? f l).isSome = true := by
  induction l with
  | nil => cases hmem
  | cons x t ih =>
    rw [List.findSome?_cons]
    cases hfx : f x with
    | some b => simp
    | none =>
      rcases List.mem_cons.mp hmem with rfl | hmem'
      · rw [hfx] at h; cases h
      · exact ih hmem'

lemma findSome?_eq_of_find? {α β : Type} (q : α → Bool) (g : α → Option β)
    (l : List α) (a : α) (hfind : List.find? q l = some a)
    (hsome : (g a).isSome = true) :
    List.findSome? (fun x => if q x then g x else none) l = g a := by
  induction l with
  | nil => cases hfind
  | cons x t ih =>
    rw [List.findSome?_cons]
    rw [List.find?_cons] at hfind
    cases hqx : q x with
    | true =>
      rw [hqx] at hfind
      simp only at hfind
      cases hfind
      obtain ⟨b, hb⟩ := Option.isSome_iff_exists.mp hsome
      simp [hb]
    | false =>
      rw [hqx] at hfind
      simp only at hfind
      rw [if_neg (by simp [hqx])]
      exact ih hfind

/-- The events `open_ble_device` can emit: allocations of the objects
the environment hands out in this call, releases of those same objects,
and nothing else — in particular no fingerprint, model-label or
descriptor release and no name resolution. -/
def open_evt_ok (env : Env) (e : Evt) : Bool :=
  match e with
  | .ctx_new i => i == env.ctx_id
  | .ctx_free i => i == env.ctx_id
  | .bleobj_new i => i == env.bleobj_id
  | .bleobj_free i => i == env.bleobj_id
  | .stream_new i => i == env.stream_id
  | .stream_close i => i == env.stream_id
  | .dev_open i => i == env.dev_id
  | .dev_close i => i == env.dev_id
  | .desc_new _ _ => true
  | .model_new _ => true
  | .desc_free _ _ => false
  | .model_free _ => false
  | .fp_free _ => false
  | .fp_lookup _ _ => false
  | .fp_set _ _ => false
  | .name_resolve _ => false

lemma open_trace_ok (env : Env) (d : device_data_t) (addr : Str)
    (family model : Nat) :
    ((open_ble_device env (some d) (some addr) family model).2.2).all
      (open_evt_ok env) = true := by
  by_cases hctx : env.ctx_new = dc_status_t.SUCCESS
  · cases hfd : find_descriptor_by_model env.catalog family model with
    | none =>
      simp [open_ble_device, hctx, hfd, close_device_data, open_evt_ok]
    | some desc =>
      cases hbc : env.ble_create_ok with
      | false =>
        simp [open_ble_device, ble_packet_open, hctx, hfd, hbc,
          close_device_data, open_evt_ok]
      | true =>
        cases hcn : env.ble_connect addr with
        | false =>
          simp [open_ble_device, ble_packet_open, hctx, hfd, hbc, hcn,
            close_device_data, open_evt_ok]
        | true =>
          cases hsa : env.stream_alloc_ok with
          | false =>
            simp [open_ble_device, ble_packet_open, hctx, hfd, hbc, hcn, hsa,
              close_device_data, open_evt_ok]
          | true =>
            by_cases hdo : env.dev_open desc = dc_status_t.SUCCESS
            · by_cases hse : env.set_events = dc_status_t.SUCCESS
              · cases hma : env.model_alloc_ok with
                | false =>
                  simp [open_ble_device, ble_packet_open, hctx, hfd, hbc, hcn,
                    hsa, hdo, hse, hma, close_device_data, open_evt_ok]
                | true =>
                  simp [open_ble_device, ble_packet_open, hctx, hfd, hbc, hcn,
                    hsa, hdo, hse, hma, close_device_data, open_evt_ok]
              · simp [open_ble_device, ble_packet_open, hctx, hfd, hbc, hcn,
                  hsa, hdo, hse, close_device_data, open_evt_ok]
            · simp [open_ble_device, ble_packet_open, hctx, hfd, hbc, hcn,
                hsa, hdo, close_device_data, open_evt_ok]
  · simp [open_ble_device, hctx]

lemma open_trace_mem (env : Env) (d : device_data_t) (addr : Str)
    (family model : Nat) {e : Evt}
    (he : e ∈ (open_ble_device env (some d) (some addr) family model).2.2) :
    open_evt_ok env e = true :=
  List.all_eq_true.mp (open_trace_ok env d addr family model) e he

/-- Wrap an optional resource into the one release event it yields. -/
def optEvt {α : Type} (f : α → Evt) : Option α → List Evt
  | none => []
  | some x => [f x]

/-- C4: the match test performed for an entry in `MATCH_EXACT` mode
accepts a name if and only if the test for the same entry in
`MATCH_CONTAINS` mode does — both are substring containment of the key
in the name, so the two modes are extensionally equal. -/
theorem C4_exact_eq_contains (name key vendor product : Str) :
    pattern_matches name ⟨key, vendor, product, .MATCH_EXACT⟩
      = pattern_matches name ⟨key, vendor, product, .MATCH_CONTAINS⟩ := rfl

/-- C7: `ble_stream_read` returns the transport read's status and actual
count unchanged; a read that receives fewer bytes than requested (but
more than zero) returns `SUCCESS` with the actual count, and a read that
receives zero bytes before the timeout elapses returns `TIMEOUT`. -/
theorem C7_read_passthrough (avail : List Nat) (requested : Nat) :
    ble_stream_read avail requested = ble_read avail requested
    ∧ (avail ≠ [] →
        (ble_stream_read avail requested).1 = dc_status_t.SUCCESS
        ∧ (ble_stream_read avail requested).2.2 = min requested avail.length
        ∧ (ble_stream_read avail requested).2.2 ≤ requested)
    ∧ (avail = [] →
        ble_stream_read avail requested = (dc_status_t.TIMEOUT, [], 0)) := by
  refine ⟨rfl, ?_, ?_⟩
  · intro h
    rcases avail with _ | ⟨a, t⟩
    · exact absurd rfl h
    · refine ⟨rfl, ?_, ?_⟩
      · simp [ble_stream_read, ble_read]
      · show (List.take requested (a :: t)).length ≤ requested
        rw [List.length_take]
        exact Nat.min_le_left _ _
  · intro h
    subst h
    rfl

/-- Witness for C7: a two-byte arrival against a five-byte request is a
successful partial read, and an empty arrival is a timeout. -/
theorem C7_read_witness :
    (([170, 187] : List Nat) ≠ []
      ∧ (ble_stream_read [170, 187] 5).1 = dc_status_t.SUCCESS
      ∧ (ble_stream_read [170, 187] 5).2.2 = min 5 ([170, 187] : List Nat).length)
    ∧ ble_stream_read [] 5 = (dc_status_t.TIMEOUT, [], 0) :=
  ⟨⟨by decide, ((C7_read_passthrough [170, 187] 5).2.1 (by decide)).1,
    ((C7_read_passthrough [170, 187] 5).2.1 (by decide)).2.1⟩,
   (C7_read_passthrough [] 5).2.2 rfl⟩

/-- C9: one `close_device_data` call releases, in exactly this order,
the fingerprint bytes, the model label, the device handle, the stream
and the context (each only when present), and leaves every owning field
of the session — including the descriptor field, which is nulled without
a release — equal to NULL, all other fields untouched. -/
theorem C9_close_order (d : device_data_t) :
    close_device_data (some d)
      = (some { d with
                  fingerprint := none,
                  fsize := if d.fingerprint.isSome then 0 else d.fsize,
                  model := none,
                  device := none, iostream := none, context := none,
                  descriptor := none },
         optEvt Evt.fp_free d.fingerprint
           ++ optEvt Evt.model_free d.model
           ++ optEvt Evt.dev_close d.device
           ++ optEvt Evt.stream_close d.iostream
           ++ optEvt Evt.ctx_free d.context) := by
  rcases d with ⟨dev, ctx, io, desc, hdi, di, hp, pr, hc, fp, fs, fctx, lf,
    mdl, fdev, fdive⟩
  cases fp <;> cases mdl <;> cases dev <;> cases io <;> cases ctx <;>
    simp [close_device_data, optEvt]

/-- C1 (amended): the first table entry whose match test accepts the
name determines the vendor/product used for the catalog lookup, and
whenever an entry with a substring-based mode has its key contained in
the name and its catalog lookup succeeds, the resolution is decided
within the entries up to and including that entry — later entries, in
particular a broader overlapping entry listed after a more specific one,
are never consulted.  (A name containing the more specific key need not
resolve to exactly that entry when an even earlier entry also matches.) -/
theorem C1_precedence :
    (∀ (catalog : List dc_descriptor_t) (name : Str) (p : name_pattern),
      List.find? (pattern_matches name) name_patterns = some p →
      (lookup_vendor_product catalog p).isSome = true →
      find_descriptor_by_name catalog name = lookup_vendor_product catalog p)
    ∧ (∀ (catalog : List dc_descriptor_t) (name : Str) (i : Nat)
        (hi : i < name_patterns.length),
      (name_patterns.get ⟨i, hi⟩).match_type ≠ match_mode.MATCH_PFX →
      isSubstring (name_patterns.get ⟨i, hi⟩).match_key name = true →
      (lookup_vendor_product catalog (name_patterns.get ⟨i, hi⟩)).isSome = true →
      find_descriptor_by_name catalog name
          = List.findSome? (pattern_step catalog name)
              (name_patterns.take (i + 1))
        ∧ (List.findSome? (pattern_step catalog name)
              (name_patterns.take (i + 1))).isSome = true) := by
  constructor
  · intro catalog name p hfind hsome
    obtain ⟨b, hb⟩ := Option.isSome_iff_exists.mp hsome
    have h1 : List.findSome? (pattern_step catalog name) name_patterns
        = lookup_vendor_product catalog p :=
      findSome?_eq_of_find? (pattern_matches name)
        (lookup_vendor_product catalog) name_patterns p hfind hsome
    unfold find_descriptor_by_name
    rw [h1, hb]
  · intro catalog name i hi hmode hsub hsome
    set p := name_patterns.get ⟨i, hi⟩ with hp
    have hpm : pattern_matches name p = true := by
      cases hmt : p.match_type with
      | MATCH_EXACT => simpa [pattern_matches, hmt] using hsub
      | MATCH_PFX => exact absurd hmt hmode
      | MATCH_CONTAINS => simpa [pattern_matches, hmt] using hsub
    have hfp : (pattern_step catalog name p).isSome = true := by
      simp [pattern_step, hpm, hsome]
    have hlen : i < (name_patterns.take (i + 1)).length := by
      rw [List.length_take]
      exact lt_min (Nat.lt_succ_self i) hi
    have hmem : p ∈ name_patterns.take (i + 1) := by
      have h2 : (name_patterns.take (i + 1))[i] = name_patterns[i] :=
        List.getElem_take name_patterns
      have h3 : name_patterns[i] = p := by
        rw [hp]
        simp [List.get_eq_getElem]
      have h4 : (name_patterns.take (i + 1))[i] ∈ name_patterns.take (i + 1) :=
        List.getElem_mem hlen
      rwa [h2, h3] at h4
    have htake : (List.findSome? (pattern_step catalog name)
        (name_patterns.take (i + 1))).isSome = true :=
      findSome?_isSome_of_mem _ hmem hfp
    refine ⟨?_, htake⟩
    have h5 : List.findSome? (pattern_step catalog name) name_patterns
        = List.findSome? (pattern_step catalog name)
            (name_patterns.take (i + 1)) := by
      conv_lhs => rw [← List.take_append_drop (i + 1) name_patterns]
      exact findSome?_append_of_isSome _ _ _ htake
    unfold find_descriptor_by_name
    rw [h5]
    obtain ⟨b, hb⟩ := Option.isSome_iff_exists.mp htake
    rw [hb]

/-- A catalog fragment holding the three Shearwater descriptors whose
keys overlap in the pattern table. -/
def shearwaterTestCatalog : List dc_descriptor_t := [
  ⟨"Shearwater".data, "Predator".data, 3, 16, true, fun _ => false⟩,
  ⟨"Shearwater".data, "Perdix 2".data, 3, 17, true, fun _ => false⟩,
  ⟨"Shearwater".data, "Perdix".data, 3, 18, true, fun _ => false⟩]

/-- Counterexample to C1 as stated: the name "Predator Perdix 2"
contains the more specific key "Perdix 2" of the overlapping pair
(entry 1 "Perdix 2", entry 4 "Perdix"), yet it does not resolve to the
"Perdix 2" entry — it resolves through the even earlier "Predator"
entry (though indeed never through the broader "Perdix" entry). -/
theorem C1_counterexample :
    isSubstring "Perdix 2".data "Predator Perdix 2".data = true
    ∧ (name_patterns.get? 1).map name_pattern.match_key = some "Perdix 2".data
    ∧ (name_patterns.get? 4).map name_pattern.match_key = some "Perdix".data
    ∧ (find_descriptor_by_name shearwaterTestCatalog
        "Predator Perdix 2".data).map dc_descriptor_t.product
        = some "Predator".data
    ∧ some "Predator".data ≠ some "Perdix 2".data := by decide

/-- A one-descriptor catalog for the Perdix 2 witness. -/
def perdix2Catalog : List dc_descriptor_t :=
  [⟨"Shearwater".data, "Perdix 2".data, 3, 17, true, fun _ => false⟩]

/-- Witness for C1: for the name "Perdix 2" the first accepting entry is
the "Perdix 2" entry (index 1), its lookup decides the resolution, and
the resolution is confined to the first two table entries — the broader
"Perdix" entry at index 4 is never consulted. -/
theorem C1_witness :
    (List.find? (pattern_matches "Perdix 2".data) name_patterns
        = some (NP "Perdix 2" "Shearwater" "Perdix 2" .MATCH_EXACT)
      ∧ find_descriptor_by_name perdix2Catalog "Perdix 2".data
          = lookup_vendor_product perdix2Catalog
              (NP "Perdix 2" "Shearwater" "Perdix 2" .MATCH_EXACT))
    ∧ (find_descriptor_by_name perdix2Catalog "Perdix 2".data
        = List.findSome? (pattern_step perdix2Catalog "Perdix 2".data)
            (name_patterns.take 2)
      ∧ (List.findSome? (pattern_step perdix2Catalog "Perdix 2".data)
            (name_patterns.take 2)).isSome = true) :=
  ⟨⟨by decide,
    C1_precedence.1 perdix2Catalog "Perdix 2".data
      (NP "Perdix 2" "Shearwater" "Perdix 2" .MATCH_EXACT)
      (by decide) (by decide)⟩,
   C1_precedence.2 perdix2Catalog "Perdix 2".data 1
     (by decide) (by decide) (by decide) (by decide)⟩

/-- The remap entry: BLE advertises "Peregrine" but the hardware is the
Peregrine TX. -/
def peregrine_pattern : name_pattern :=
  NP "Peregrine" "Shearwater" "Peregrine TX" .MATCH_EXACT

/-- C8: the exact name "Peregrine" resolves through the table's remap
entry (index 7) to the descriptor with vendor "Shearwater" and product
"Peregrine TX", never to a descriptor with product "Peregrine". -/
theorem C8_peregrine (catalog : List dc_descriptor_t)
    (h : (lookup_vendor_product catalog peregrine_pattern).isSome = true) :
    name_patterns.get? 7 = some peregrine_pattern
    ∧ find_descriptor_by_name catalog "Peregrine".data
        = lookup_vendor_product catalog peregrine_pattern
    ∧ (find_descriptor_by_name catalog "Peregrine".data).map
        (fun d => (d.vendor, d.product))
        = some ("Shearwater".data, "Peregrine TX".data) := by
  have hfind : List.find? (pattern_matches "Peregrine".data) name_patterns
      = some peregrine_pattern := by decide
  have h1 : List.findSome? (pattern_step catalog "Peregrine".data) name_patterns
      = lookup_vendor_product catalog peregrine_pattern :=
    findSome?_eq_of_find? (pattern_matches "Peregrine".data)
      (lookup_vendor_product catalog) name_patterns peregrine_pattern hfind h
  obtain ⟨b, hb⟩ := Option.isSome_iff_exists.mp h
  have hpred := List.find?_some hb
  rw [Bool.and_eq_true] at hpred
  have hv : b.vendor = "Shearwater".data := eq_of_beq hpred.1
  have hpr : b.product = "Peregrine TX".data := eq_of_beq hpred.2
  refine ⟨by decide, ?_, ?_⟩
  · unfold find_descriptor_by_name
    rw [h1, hb]
  · unfold find_descriptor_by_name
    rw [h1, hb]
    simp [hv, hpr]

/-- A one-descriptor catalog for the Peregrine witness. -/
def peregrineCatalog : List dc_descriptor_t :=
  [⟨"Shearwater".data, "Peregrine TX".data, 3, 21, true, fun _ => false⟩]

/-- Witness for C8: with a catalog holding the Shearwater Peregrine TX
descriptor, the name "Peregrine" resolves to it. -/
theorem C8_witness :
    find_descriptor_by_name peregrineCatalog "Peregrine".data
        = lookup_vendor_product peregrineCatalog peregrine_pattern
    ∧ (find_descriptor_by_name peregrineCatalog "Peregrine".data).map
        (fun d => (d.vendor, d.product))
        = some ("Shearwater".data, "Peregrine TX".data) :=
  ⟨(C8_peregrine peregrineCatalog (by decide)).2.1,
   (C8_peregrine peregrineCatalog (by decide)).2.2⟩

/-- C2 (amended): `open_ble_device` rejects a NULL data pointer or a
NULL address with `INVALIDARGS` before acquiring anything; an empty
(non-NULL) address string is not rejected by the argument check. -/
theorem C2_null_args :
    (∀ (env : Env) (devaddr : Option Str) (family model : Nat),
      open_ble_device env none devaddr family model
        = (dc_status_t.INVALIDARGS, none, []))
    ∧ (∀ (env : Env) (d : device_data_t) (family model : Nat),
      open_ble_device env (some d) none family model
        = (dc_status_t.INVALIDARGS, some d, [])) :=
  ⟨fun _ _ _ _ => rfl, fun _ _ _ _ => rfl⟩

/-- An environment whose BLE layer behaves realistically for an empty
address: connecting to the empty address fails, everything else
succeeds. -/
def emptyAddrEnv : Env := {
  ctx_new := .SUCCESS, ctx_id := 1,
  catalog := [⟨"Shearwater".data, "Predator".data, 3, 16, true,
    fun _ => false⟩],
  ble_create_ok := true, bleobj_id := 2,
  ble_connect := fun a => !a.isEmpty,
  stream_alloc_ok := true, stream_id := 3,
  dev_open := fun _ => .SUCCESS, dev_id := 4,
  set_events := .SUCCESS, model_alloc_ok := true, calloc_ok := true }

/-- Counterexample to C2 as stated: with the empty address string `""`
(a non-NULL pointer), the argument check `!devaddr` does not fire —
the call proceeds to acquire the context and fails only at the connect
step with the IO status, not with `INVALIDARGS`, and not before
acquiring resources. -/
theorem C2_counterexample :
    (open_ble_device emptyAddrEnv (some {}) (some "".data) 3 16).1
        = dc_status_t.IO_FAIL
    ∧ dc_status_t.IO_FAIL ≠ dc_status_t.INVALIDARGS
    ∧ Evt.ctx_new 1
        ∈ (open_ble_device emptyAddrEnv (some {}) (some "".data) 3 16).2.2 := by
  decide

/-- An environment where the catalog resolves the requested descriptor
but the BLE connect step fails. -/
def connectFailEnv : Env := {
  ctx_new := .SUCCESS, ctx_id := 1,
  catalog := [⟨"Shearwater".data, "Predator".data, 3, 16, true,
    fun _ => false⟩],
  ble_create_ok := true, bleobj_id := 2,
  ble_connect := fun _ => false,
  stream_alloc_ok := true, stream_id := 3,
  dev_open := fun _ => .SUCCESS, dev_id := 4,
  set_events := .SUCCESS, model_alloc_ok := true, calloc_ok := true }

/-- C5 (code bug): when the transport connect step fails after the
descriptor has been resolved, `open_ble_device` returns the IO status
having released the context and the BLE object, but the descriptor
acquired from `find_descriptor_by_model` is never released — the trace
records its acquisition and no matching release (`close_device_data`
only nulls the descriptor field), contradicting the header contract
"Caller must free the returned descriptor" and the claim that every
acquired resource is released before returning. -/
theorem C5_descriptor_leak :
    (open_ble_device connectFailEnv (some {}) (some "AA:BB".data) 3 16).1
        = dc_status_t.IO_FAIL
    ∧ Evt.desc_new "Shearwater".data "Predator".data
        ∈ (open_ble_device connectFailEnv (some {}) (some "AA:BB".data) 3 16).2.2
    ∧ Evt.desc_free "Shearwater".data "Predator".data
        ∉ (open_ble_device connectFailEnv (some {}) (some "AA:BB".data) 3 16).2.2
    ∧ Evt.ctx_free 1
        ∈ (open_ble_device connectFailEnv (some {}) (some "AA:BB".data) 3 16).2.2
    ∧ Evt.bleobj_free 2
        ∈ (open_ble_device connectFailEnv (some {}) (some "AA:BB".data) 3 16).2.2 := by
  decide

/-- C10: `open_ble_device` zeroes the caller-supplied session before
acquiring anything — its entire outcome is independent of the session's
prior contents — and nothing previously stored there is closed or
freed: every release in its trace targets an object handed out by the
environment in this very call, and it never frees fingerprint bytes, a
model label or a descriptor. -/
theorem C10_memset_first :
    (∀ (env : Env) (d d' : device_data_t) (addr : Str) (family model : Nat),
      open_ble_device env (some d) (some addr) family model
        = open_ble_device env (some d') (some addr) family model)
    ∧ (∀ (env : Env) (d : device_data_t) (addr : Str) (family model : Nat),
      (∀ i, Evt.ctx_free i
          ∈ (open_ble_device env (some d) (some addr) family model).2.2 →
          i = env.ctx_id)
      ∧ (∀ i, Evt.dev_close i
          ∈ (open_ble_device env (some d) (some addr) family model).2.2 →
          i = env.dev_id)
      ∧ (∀ i, Evt.stream_close i
          ∈ (open_ble_device env (some d) (some addr) family model).2.2 →
          i = env.stream_id)
      ∧ (∀ i, Evt.bleobj_free i
          ∈ (open_ble_device env (some d) (some addr) family model).2.2 →
          i = env.bleobj_id)
      ∧ (∀ b, Evt.fp_free b
          ∉ (open_ble_device env (some d) (some addr) family model).2.2)
      ∧ (∀ s, Evt.model_free s
          ∉ (open_ble_device env (some d) (some addr) family model).2.2)
      ∧ (∀ v p, Evt.desc_free v p
          ∉ (open_ble_device env (some d) (some addr) family model).2.2)) := by
  constructor
  · intro env d d' addr family model
    rfl
  · intro env d addr family model
    refine ⟨?_, ?_, ?_, ?_, ?_, ?_, ?_⟩
    · intro i hm
      simpa [open_evt_ok] using open_trace_mem env d addr family model hm
    · intro i hm
      simpa [open_evt_ok] using open_trace_mem env d addr family model hm
    · intro i hm
      simpa [open_evt_ok] using open_trace_mem env d addr family model hm
    · intro i hm
      simpa [open_evt_ok] using open_trace_mem env d addr family model hm
    · intro b hm
      simpa [open_evt_ok] using open_trace_mem env d addr family model hm
    · intro s hm
      simpa [open_evt_ok] using open_trace_mem env d addr family model hm
    · intro v p hm
      simpa [open_evt_ok] using open_trace_mem env d addr family model hm

/-- An environment whose catalog lacks the requested model, so the open
fails right after context creation. -/
def unsupportedEnv : Env := {
  ctx_new := .SUCCESS, ctx_id := 1, catalog := [],
  ble_create_ok := true, bleobj_id := 2, ble_connect := fun _ => true,
  stream_alloc_ok := true, stream_id := 3, dev_open := fun _ => .SUCCESS,
  dev_id := 4, set_events := .SUCCESS, model_alloc_ok := true,
  calloc_ok := true }

/-- A session still holding resources from an earlier open. -/
def staleSession : device_data_t :=
  { device := some 99, context := some 98, fingerprint := some [1, 2] }

/-- Witness for C10: opening over a stale session gives the same result
as opening over a fresh one, the one context released is the one this
call created, and the stale fingerprint bytes are never freed. -/
theorem C10_witness :
    open_ble_device unsupportedEnv (some staleSession) (some "X".data) 3 16
        = open_ble_device unsupportedEnv (some {}) (some "X".data) 3 16
    ∧ (1 : Nat) = unsupportedEnv.ctx_id
    ∧ Evt.fp_free [1, 2]
        ∉ (open_ble_device unsupportedEnv (some staleSession)
            (some "X".data) 3 16).2.2 :=
  ⟨C10_memset_first.1 unsupportedEnv staleSession {} "X".data 3 16,
   (C10_memset_first.2 unsupportedEnv staleSession "X".data 3 16).1 1
     (by decide),
   (C10_memset_first.2 unsupportedEnv staleSession "X".data 3 16).2.2.2.2.1
     [1, 2]⟩

/-- Recognizes fingerprint-lookup invocations in a trace. -/
def is_fp_lookup : Evt → Bool
  | .fp_lookup _ _ => true
  | _ => false

/-- Recognizes `dc_device_set_fingerprint` calls in a trace. -/
def is_fp_set : Evt → Bool
  | .fp_set _ _ => true
  | _ => false

lemma hexDigit_mem : ∀ m < 16, hexDigit m ∈ "0123456789abcdef".data := by
  decide

/-- C3: on a device-info event with a lookup function and a model label
present, the callback formats the serial as eight lowercase hex digits,
invokes the lookup exactly once with (model label, serial string); a
non-null non-empty result is forwarded to the device handle via
set-fingerprint exactly once and stored (bytes and size) in the
session, while a null or empty result leaves the device handle's
fingerprint and the session's fingerprint fields untouched. -/
theorem C3_fingerprint (device : Nat) (info : dc_event_devinfo_t)
    (d : device_data_t) (lookup : Nat → Str → Str → Option (List Nat))
    (mstr : Str)
    (hl : d.lookup_fingerprint = some lookup) (hm : d.model = some mstr) :
    ((format_serial_hex8 info.serial).length = 8
      ∧ ∀ c ∈ format_serial_hex8 info.serial, c ∈ "0123456789abcdef".data)
    ∧ (ble_device_event_cb device (.DC_EVENT_DEVINFO info) (some d)).2.filter
        is_fp_lookup
        = [Evt.fp_lookup mstr (format_serial_hex8 info.serial)]
    ∧ (∀ bytes,
        lookup d.fingerprint_context mstr (format_serial_hex8 info.serial)
            = some bytes → bytes ≠ [] →
        (ble_device_event_cb device (.DC_EVENT_DEVINFO info) (some d)).2.filter
            is_fp_set = [Evt.fp_set device bytes]
        ∧ (ble_device_event_cb device (.DC_EVENT_DEVINFO info) (some d)).1
            = some { d with
                       devinfo := info, have_devinfo := true,
                       fingerprint := some bytes, fsize := bytes.length })
    ∧ ((lookup d.fingerprint_context mstr (format_serial_hex8 info.serial)
          = none
        ∨ lookup d.fingerprint_context mstr (format_serial_hex8 info.serial)
            = some []) →
        (ble_device_event_cb device (.DC_EVENT_DEVINFO info) (some d)).2.filter
            is_fp_set = []
        ∧ (ble_device_event_cb device (.DC_EVENT_DEVINFO info) (some d)).1
            = some { d with devinfo := info, have_devinfo := true }) := by
  rcases d with ⟨dev, ctx, io, desc, hdi0, di, hp0, pr, hc0, fp, fs, fctx,
    lf, mdl, fdev, fdive⟩
  obtain rfl : lf = some lookup := hl
  obtain rfl : mdl = some mstr := hm
  refine ⟨⟨rfl, ?_⟩, ?_, ?_, ?_⟩
  · intro c hc
    simp only [format_serial_hex8, List.mem_cons, List.not_mem_nil,
      or_false] at hc
    rcases hc with rfl | rfl | rfl | rfl | rfl | rfl | rfl | rfl <;>
      exact hexDigit_mem _ (Nat.mod_lt _ (by decide))
  · cases hr : lookup fctx mstr (format_serial_hex8 info.serial) with
    | none => simp [ble_device_event_cb, hr, is_fp_lookup]
    | some bytes =>
      rcases bytes with _ | ⟨x, xs⟩ <;>
        simp [ble_device_event_cb, hr, is_fp_lookup, is_fp_set]
  · intro bytes hb hne
    rcases bytes with _ | ⟨x, xs⟩
    · exact absurd rfl hne
    · constructor <;>
        simp [ble_device_event_cb, hb, is_fp_lookup, is_fp_set]
  · intro hnone
    rcases hnone with hr | hr <;>
      exact ⟨by simp [ble_device_event_cb, hr, is_fp_set],
             by simp [ble_device_event_cb, hr]⟩

/-- The fingerprint store of the claim's example: it knows the key
("Suunto EON Steel", "deadbeef") and answers with bytes 0xAA 0xBB. -/
def eonLookup : Nat → Str → Str → Option (List Nat) :=
  fun _ device_type serial =>
    if device_type == "Suunto EON Steel".data && serial == "deadbeef".data
    then some [170, 187] else none

/-- A session with the example lookup callback and model label. -/
def eonSession : device_data_t :=
  { lookup_fingerprint := some eonLookup,
    model := some "Suunto EON Steel".data }

/-- Witness for C3: serial 0xDEADBEEF formats as "deadbeef", the lookup
fires exactly once, and the returned bytes [0xAA, 0xBB] are forwarded
to the device handle exactly once and stored in the session. -/
theorem C3_witness :
    format_serial_hex8 3735928559 = "deadbeef".data
    ∧ (ble_device_event_cb 7 (.DC_EVENT_DEVINFO ⟨2, 1, 3735928559⟩)
        (some eonSession)).2.filter is_fp_lookup
        = [Evt.fp_lookup "Suunto EON Steel".data
            (format_serial_hex8 3735928559)]
    ∧ (ble_device_event_cb 7 (.DC_EVENT_DEVINFO ⟨2, 1, 3735928559⟩)
        (some eonSession)).2.filter is_fp_set
        = [Evt.fp_set 7 [170, 187]]
    ∧ (ble_device_event_cb 7 (.DC_EVENT_DEVINFO ⟨2, 1, 3735928559⟩)
        (some eonSession)).1
        = some { eonSession with
                   devinfo := ⟨2, 1, 3735928559⟩, have_devinfo := true,
                   fingerprint := some [170, 187], fsize := 2 } :=
  ⟨by decide,
   (C3_fingerprint 7 ⟨2, 1, 3735928559⟩ eonSession eonLookup
     "Suunto EON Steel".data rfl rfl).2.1,
   ((C3_fingerprint 7 ⟨2, 1, 3735928559⟩ eonSession eonLookup
     "Suunto EON Steel".data rfl rfl).2.2.1 [170, 187]
     (by decide) (by decide)).1,
   ((C3_fingerprint 7 ⟨2, 1, 3735928559⟩ eonSession eonLookup
     "Suunto EON Steel".data rfl rfl).2.2.1 [170, 187]
     (by decide) (by decide)).2⟩

lemma fallback_resolves (env : Env) (name addr : Str)
    (d : Option device_data_t) :
    Evt.name_resolve name ∈ (fallback_open env name addr d).2.2 := by
  cases hf : find_descriptor_by_name env.catalog name with
  | none => simp [fallback_open, get_device_info_from_name, hf]
  | some dsc =>
    simp only [fallback_open, get_device_info_from_name, hf]
    split <;> simp

/-- C6: `open_ble_device_with_identification` attempts the stored
(family, model) pair first exactly when the family is not
`DC_FAMILY_NULL` and the model is not 0; a successful stored open is
returned as-is without ever invoking name resolution; on stored-open
failure, or with no stored pair, the name is resolved via
`get_device_info_from_name` and the resolved pair is opened, the
resolution failure (`UNSUPPORTED`) or the open failure being propagated
otherwise. -/
theorem C6_stored_first (env : Env) (name address : Str) (sf sm : Nat)
    (hcal : env.calloc_ok = true) :
    (sf ≠ DC_FAMILY_NULL → sm ≠ 0 →
      (open_ble_device env (some {}) (some address) sf sm).1
          = dc_status_t.SUCCESS →
      open_ble_device_with_identification env name address sf sm
          = open_ble_device env (some {}) (some address) sf sm
        ∧ ∀ n, Evt.name_resolve n
            ∉ (open_ble_device_with_identification env name address sf sm).2.2)
    ∧ ((sf = DC_FAMILY_NULL ∨ sm = 0) →
      open_ble_device_with_identification env name address sf sm
          = fallback_open env name address (some {}))
    ∧ (sf ≠ DC_FAMILY_NULL → sm ≠ 0 →
      (open_ble_device env (some {}) (some address) sf sm).1
          ≠ dc_status_t.SUCCESS →
      (open_ble_device_with_identification env name address sf sm).1
          = (fallback_open env name address
              (open_ble_device env (some {}) (some address) sf sm).2.1).1
        ∧ (open_ble_device_with_identification env name address sf sm).2.1
          = (fallback_open env name address
              (open_ble_device env (some {}) (some address) sf sm).2.1).2.1
        ∧ Evt.name_resolve name
            ∈ (open_ble_device_with_identification env name address sf sm).2.2)
    ∧ (∀ d : Option device_data_t,
      (find_descriptor_by_name env.catalog name = none →
        fallback_open env name address d
            = (dc_status_t.UNSUPPORTED, none, [Evt.name_resolve name]))
      ∧ (∀ dsc, find_descriptor_by_name env.catalog name = some dsc →
        (fallback_open env name address d).1
            = (open_ble_device env d (some address) dsc.family dsc.model).1)) := by
  refine ⟨?_, ?_, ?_, ?_⟩
  · intro h1 h2 h3
    have key : open_ble_device_with_identification env name address sf sm
        = open_ble_device env (some {}) (some address) sf sm := by
      simp [open_ble_device_with_identification, hcal, h1, h2, h3]
    refine ⟨key, ?_⟩
    intro n hmem
    rw [key] at hmem
    simpa [open_evt_ok] using open_trace_mem env {} address sf sm hmem
  · intro h
    have hcond : ¬(sf ≠ DC_FAMILY_NULL ∧ sm ≠ 0) := by
      rcases h with h | h <;> simp [h]
    simp [open_ble_device_with_identification, hcal, hcond]
  · intro h1 h2 h3
    refine ⟨?_, ?_, ?_⟩
    · simp [open_ble_device_with_identification, hcal, h1, h2, h3]
    · simp [open_ble_device_with_identification, hcal, h1, h2, h3]
    · have key : (open_ble_device_with_identification env name address sf sm).2.2
          = (open_ble_device env (some {}) (some address) sf sm).2.2
            ++ (fallback_open env name address
                (open_ble_device env (some {}) (some address) sf sm).2.1).2.2 := by
        simp [open_ble_device_with_identification, hcal, h1, h2, h3]
      rw [key]
      exact List.mem_append_right _ (fallback_resolves env name address _)
  · intro d
    constructor
    · intro hnone
      simp [fallback_open, get_device_info_from_name, hnone]
    · intro dsc hsome
      simp only [fallback_open, get_device_info_from_name, hsome]
      by_cases ho : (open_ble_device env d (some address) dsc.family
          dsc.model).1 = dc_status_t.SUCCESS <;> simp [ho]

/-- An environment where the stored (family, model) pair opens
successfully on the first try. -/
def storedOkEnv : Env := {
  ctx_new := .SUCCESS, ctx_id := 1,
  catalog := [⟨"Shearwater".data, "Predator".data, 3, 16, true,
    fun _ => false⟩],
  ble_create_ok := true, bleobj_id := 2, ble_connect := fun _ => true,
  stream_alloc_ok := true, stream_id := 3, dev_open := fun _ => .SUCCESS,
  dev_id := 4, set_events := .SUCCESS, model_alloc_ok := true,
  calloc_ok := true }

/-- Witness for C6: with a valid stored pair (3, 16) that opens
successfully, the identification entry point returns that open's result
and its trace contains no name resolution. -/
theorem C6_witness :
    open_ble_device_with_identification storedOkEnv "Predator".data
        "AA".data 3 16
        = open_ble_device storedOkEnv (some {}) (some "AA".data) 3 16
    ∧ Evt.name_resolve "Predator".data
        ∉ (open_ble_device_with_identification storedOkEnv "Predator".data
            "AA".data 3 16).2.2 :=
  have h := (C6_stored_first storedOkEnv "Predator".data "AA".data 3 16
    rfl).1 (by decide) (by decide) (by decide)
  ⟨h.1, h.2 "Predator".data⟩
